import Mathlib

/-!
# Verification of the escrow-bot core (deal lifecycle, persistence, security guards)

Shallow embedding of the repository's core modules:

* `transaction.py` — the `DealStatus` enumeration, the `Deal` dataclass with its
  `to_dict` / `from_dict` serialization, and `validate_deal_data`;
* `database.py`  — the store operations `create_deal`, `update_deal_status`,
  `create_user` and `check_rate_limit` over an explicit store state;
* `security.py`  — `validate_amount`, the `rate_limit` decorator's merged
  in-memory + durable guard, `block_user`, and `SecurityMonitor.log_failed_attempt`.

Python `datetime` values are modelled as rational-number timestamps (seconds),
except in `Deal`, where the serialized ISO form is modelled by an injective
decimal encoding of a natural-number clock (`isoformat` / `fromiso?`).
Python `float` amounts are modelled as rationals.  SQLite tables are modelled
as association lists; an exception raised by the backing store is modelled by
a `fault` flag on the operations that catch exceptions.
-/

namespace EscrowBot

/-! ## Deal status enumeration (`transaction.py`, `class DealStatus`) -/

/-- `DealStatus` from `transaction.py`: the five lifecycle states. -/
inductive DealStatus where
  | created
  | funded
  | completed
  | disputed
  | cancelled
deriving DecidableEq, Fintype, Repr

/-- The `.value` string of each `DealStatus` member. -/
def DealStatus.value : DealStatus → String
  | .created => "created"
  | .funded => "funded"
  | .completed => "completed"
  | .disputed => "disputed"
  | .cancelled => "cancelled"

/-- `DealStatus(s)` in Python: look a status up by its string value; raises
`ValueError` (here `none`) when no member has that value. -/
def DealStatus.ofValue : String → Option DealStatus
  | "created" => some .created
  | "funded" => some .funded
  | "completed" => some .completed
  | "disputed" => some .disputed
  | "cancelled" => some .cancelled
  | _ => none

/-! ## Python string primitives used by the validators -/

/-- `str.strip()` on the character list: drop whitespace from both ends. -/
def stripChars (l : List Char) : List Char :=
  ((l.dropWhile Char.isWhitespace).reverse.dropWhile Char.isWhitespace).reverse

/-- `str.strip()`: trim leading and trailing whitespace. -/
def pyStrip (s : String) : String := String.mk (stripChars s.toList)

/-! ## `validate_deal_data` (`transaction.py`) -/

/-- `validate_deal_data(description, amount, terms)` from `transaction.py`,
checking the rules in source order and returning the first failure message.
(`not description` in the first guard is equivalent to the stripped length
being `< 10`, since an empty string strips to length 0.) -/
def validate_deal_data (description : String) (amount : ℚ) (terms : String) :
    Bool × String :=
  if (pyStrip description).length < 10 then
    (false, "Description must be at least 10 characters")
  else if (pyStrip description).length > 500 then
    (false, "Description must be less than 500 characters")
  else if amount ≤ 0 then
    (false, "Amount must be greater than 0")
  else if amount < 100 then
    (false, "Minimum amount is ₹100")
  else if amount > 500000 then
    (false, "Maximum amount is ₹5,00,000")
  else if (pyStrip terms).length < 20 then
    (false, "Terms must be at least 20 characters")
  else if (pyStrip terms).length > 1000 then
    (false, "Terms must be less than 1000 characters")
  else
    (true, "Valid")

/-! ## `validate_amount` (`security.py`) -/

/-- Numeric value of a list of decimal digit characters, most significant first
(`int`-style accumulation). -/
def digitsToNat (l : List Char) : Nat :=
  l.foldl (fun a c => 10 * a + (c.toNat - 48)) 0

/-- Python `float(...)` on an unsigned decimal string: digits with at most one
decimal point and at least one digit overall.  (Exponents, underscores and
`inf`/`nan` spellings are outside the inputs this program feeds to `float`.) -/
def parseUnsigned (l : List Char) : Option ℚ :=
  match l.splitOn '.' with
  | [ip] =>
      if ip ≠ [] ∧ ip.all Char.isDigit then some (digitsToNat ip) else none
  | [ip, fp] =>
      if (ip ≠ [] ∨ fp ≠ []) ∧ ip.all Char.isDigit ∧ fp.all Char.isDigit then
        some ((digitsToNat ip : ℚ) + (digitsToNat fp : ℚ) / (10 : ℚ) ^ fp.length)
      else none
  | _ => none

/-- Python `float(...)` on a stripped string: optional sign, then an unsigned
decimal number; `none` models the `ValueError` branch. -/
def pyFloat? (s : String) : Option ℚ :=
  match s.toList with
  | '-' :: rest => (parseUnsigned rest).map Neg.neg
  | '+' :: rest => parseUnsigned rest
  | l => parseUnsigned l

/-- `amount_str.replace(',', '').replace('₹', '').strip()` from
`validate_amount`: removing every occurrence of a single character is
filtering it out, so the two `replace` calls are a filter over both characters,
followed by `strip`. -/
def cleanAmount (s : String) : String :=
  pyStrip (String.mk (s.toList.filter (fun c => c ≠ ',' ∧ c ≠ '₹')))

/-- `validate_amount(amount_str)` from `security.py`: clean the raw string,
parse it as a float (`ValueError` → `(False, 0)`), reject non-positive values
and values above the 10,000,000 raw-input ceiling, otherwise accept with the
parsed value. -/
def validate_amount (amount_str : String) : Bool × ℚ :=
  match pyFloat? (cleanAmount amount_str) with
  | none => (false, 0)
  | some amount =>
      if amount ≤ 0 then (false, 0)
      else if amount > 10000000 then (false, 0)
      else (true, amount)

/-! ## Rate-limit store and `check_rate_limit` (`database.py`) -/

/-- The `rate_limits` table: one `(user_id, last_action)` row per user,
timestamps in seconds. -/
abbrev RateTable := List (Nat × ℚ)

/-- `SELECT last_action FROM rate_limits WHERE user_id = ?`. -/
def lookupLast (db : RateTable) (user_id : Nat) : Option ℚ :=
  ((List.find? (fun p => p.1 = user_id) db).map Prod.snd)

/-- `INSERT OR REPLACE INTO rate_limits (user_id, last_action) VALUES (?, ?)`. -/
def upsertLast (db : RateTable) (user_id : Nat) (t : ℚ) : RateTable :=
  (user_id, t) :: List.filter (fun p => p.1 ≠ user_id) db

/-- `check_rate_limit(user_id, limit_seconds)` from `database.py`.  `fault`
models the backing store raising inside the `try` block, in which case the
handler returns `True` ("allow on error").  Otherwise: if a row exists and
`now - last_action < limit_seconds`, return `False` without touching the
table; else upsert `now` and return `True`. -/
def check_rate_limit (fault : Bool) (db : RateTable) (user_id : Nat)
    (now limit_seconds : ℚ) : Bool × RateTable :=
  if fault then (true, db)
  else
    match lookupLast db user_id with
    | some last_action =>
        if now - last_action < limit_seconds then (false, db)
        else (true, upsertLast db user_id now)
    | none => (true, upsertLast db user_id now)

/-! ## Deal and user stores (`database.py`) -/

/-- A row of the `deals` table.  `status` is stored as text (SQLite default
`'created'`); timestamps are seconds. -/
structure DealRow where
  deal_id : String
  creator_id : Nat
  description : String
  amount : ℚ
  terms : String
  status : String
  created_at : ℚ
  updated_at : ℚ
deriving DecidableEq, Repr

abbrev DealTable := List DealRow

/-- Whether a row with this `deal_id` exists (the `UNIQUE NOT NULL` constraint
on `deals.deal_id`). -/
def dealExists (db : DealTable) (deal_id : String) : Bool :=
  db.any (fun d => d.deal_id = deal_id)

/-- `create_deal(deal_id, creator_id, description, amount, terms)` from
`database.py`.  A duplicate `deal_id` makes the `INSERT` raise an
`IntegrityError`, caught by the handler, which returns `False`; `fault` models
any other exception in the `try` block, with the same handler.  On success the
row is appended with status `'created'` and both timestamps set to `now`
(`CURRENT_TIMESTAMP`). -/
def create_deal (fault : Bool) (db : DealTable) (deal_id : String)
    (creator_id : Nat) (description : String) (amount : ℚ) (terms : String)
    (now : ℚ) : Bool × DealTable :=
  if fault then (false, db)
  else if dealExists db deal_id then (false, db)
  else
    (true, db ++ [{ deal_id := deal_id, creator_id := creator_id,
                    description := description, amount := amount,
                    terms := terms, status := "created",
                    created_at := now, updated_at := now }])

/-- `update_deal_status(deal_id, status)` from `database.py`: an unconditional
`UPDATE ... WHERE deal_id = ?` refreshing `updated_at`; it performs no
transition validation and succeeds (returns `True`) even when no row matches.
`fault` models an exception in the `try` block (handler returns `False`). -/
def update_deal_status (fault : Bool) (db : DealTable) (deal_id : String)
    (status : String) (now : ℚ) : Bool × DealTable :=
  if fault then (false, db)
  else
    (true, db.map (fun d =>
      if d.deal_id = deal_id then { d with status := status, updated_at := now }
      else d))

/-- A row of the `users` table (the three columns `create_user` writes). -/
structure UserRow where
  user_id : Nat
  username : Option String
  first_name : String
deriving DecidableEq, Repr

abbrev UserTable := List UserRow

/-- `create_user(user_id, username, first_name)` from `database.py`:
`INSERT OR REPLACE` keyed on `user_id`; `fault` models an exception in the
`try` block (handler returns `False`). -/
def create_user (fault : Bool) (db : UserTable) (user_id : Nat)
    (username : Option String) (first_name : String) : Bool × UserTable :=
  if fault then (false, db)
  else
    (true, { user_id := user_id, username := username,
             first_name := first_name } :: List.filter (fun u => u.user_id ≠ user_id) db)

/-! ## Security guard (`security.py`): blocked users and the merged
rate-limit wrapper -/

/-- `block_user(user_id)`: `_blocked_users.add(user_id)` (set insertion). -/
def block_user (blocked : List Nat) (user_id : Nat) : List Nat :=
  if user_id ∈ blocked then blocked else user_id :: blocked

/-- `unblock_user(user_id)`: `_blocked_users.discard(user_id)`. -/
def unblock_user (blocked : List Nat) (user_id : Nat) : List Nat :=
  List.filter (fun u => u ≠ user_id) blocked

/-- The state the `rate_limit` decorator reads and writes: the in-memory
`_rate_limit_cache` map, the `_blocked_users` set, and the durable
`rate_limits` table behind `check_rate_limit`. -/
structure GuardState where
  cache : RateTable
  blocked : List Nat
  db : RateTable
deriving DecidableEq, Repr

/-- How one pass through the `rate_limit` wrapper ended. -/
inductive GuardOutcome where
  | blockedUser
  | rejectedMemory
  | rejectedDb
  | executed
deriving DecidableEq, Repr

/-- The `rate_limit` decorator body from `security.py`, for an action by
`user_id` at time `now` with window `RATE_LIMIT_SECONDS = window` (the value
lives in the absent `config.py`, so it stays a parameter).  In source order:
a blocked user returns immediately; then the in-memory cache is consulted and
a recent entry rejects without any write; then the cache entry is overwritten
with `now`; then the durable `check_rate_limit` runs and its `False` aborts
the action; otherwise the wrapped handler executes.  `fault` is passed through
to `check_rate_limit`.  (The user-id extraction from the aiogram event and the
warning replies are transport glue and carry no state.) -/
def rate_limit (fault : Bool) (st : GuardState) (user_id : Nat)
    (now window : ℚ) : GuardOutcome × GuardState :=
  if user_id ∈ st.blocked then (.blockedUser, st)
  else
    let proceed : GuardState → GuardOutcome × GuardState := fun s =>
      let cache' := upsertLast s.cache user_id now
      let r := check_rate_limit fault s.db user_id now window
      if r.1 then (.executed, { s with cache := cache', db := r.2 })
      else (.rejectedDb, { s with cache := cache', db := r.2 })
    match lookupLast st.cache user_id with
    | some t =>
        if now - t < window then (.rejectedMemory, st) else proceed st
    | none => proceed st

/-! ## `SecurityMonitor` (`security.py`) -/

/-- The in-memory security-monitor state: the per-user `failed_attempts` and
`suspicious_activity` counters together with the module-level `_blocked_users`
set that `block_user` mutates. -/
structure MonitorState where
  failed : List (Nat × Nat)
  suspicious : List (Nat × Nat)
  blocked : List Nat
deriving DecidableEq, Repr

/-- Counter lookup with the `if user_id not in ...: ... = 0` initialization:
an absent key counts as 0. -/
def lookupCount (l : List (Nat × Nat)) (user_id : Nat) : Nat :=
  (((List.find? (fun p => p.1 = user_id)) l).map Prod.snd).getD 0

/-- Overwrite a counter entry. -/
def upsertCount (l : List (Nat × Nat)) (user_id : Nat) (c : Nat) :
    List (Nat × Nat) :=
  (user_id, c) :: List.filter (fun p => p.1 ≠ user_id) l

/-- `SecurityMonitor.log_failed_attempt(user_id, ...)` from `security.py`:
increment the user's failed-attempt counter (initializing an absent entry
to 0), and once the counter reaches 5 (`>= 5`) call `block_user`.  The
`log_security_event` appends are write-only side effects with no bearing on
state. -/
def log_failed_attempt (st : MonitorState) (user_id : Nat) : MonitorState :=
  let c := lookupCount st.failed user_id + 1
  let failed' := upsertCount st.failed user_id c
  if c ≥ 5 then
    { st with failed := failed', blocked := block_user st.blocked user_id }
  else
    { st with failed := failed' }

/-- `n` successive `log_failed_attempt` calls for the same user. -/
def logFailedIter (st : MonitorState) (user_id : Nat) : Nat → MonitorState
  | 0 => st
  | n + 1 => log_failed_attempt (logFailedIter st user_id n) user_id

/-! ## Deal lifecycle orchestrator

The repository's handler layer (the orchestrator that checks a transition's
legality before calling `update_deal_status`) is not among the source files;
only the status enumeration and the unconditional store update are.  The
legality check is therefore modelled from the specification's transition
table. -/

/-- Modelled from the spec: the orchestrator's transition-legality check,
absent from the available source files.  It follows §4.4's transition table
verbatim: `CREATED → FUNDED` on a payment claim (any user), `FUNDED →
COMPLETED` and `FUNDED → DISPUTED` by the deal creator or the admin,
`DISPUTED → COMPLETED`, `DISPUTED → CANCELLED` and `CREATED → CANCELLED` by
the admin only; every other pair is illegal for every caller. -/
def allowedTransition (src tgt : DealStatus) (callerIsAdmin callerIsCreator : Bool) :
    Bool :=
  match src, tgt with
  | .created, .funded => true
  | .funded, .completed => callerIsCreator || callerIsAdmin
  | .funded, .disputed => callerIsCreator || callerIsAdmin
  | .disputed, .completed => callerIsAdmin
  | .disputed, .cancelled => callerIsAdmin
  | .created, .cancelled => callerIsAdmin
  | _, _ => false

/-- The status of the stored row for `deal_id`, decoded to the enumeration
(`none` when the deal is absent or its stored text is no status value). -/
def currentStatus (db : DealTable) (deal_id : String) : Option DealStatus :=
  (List.find? (fun d => d.deal_id = deal_id) db).bind
    (fun d => DealStatus.ofValue d.status)

/-- Modelled from the spec: the orchestrator step, absent from the available
source files — read the deal's current status, reject (leaving the store
untouched) unless `allowedTransition` permits the move for this caller, and
otherwise apply the repository's real `update_deal_status`. -/
def transitionDeal (db : DealTable) (deal_id : String) (tgt : DealStatus)
    (callerIsAdmin callerIsCreator : Bool) (now : ℚ) : Bool × DealTable :=
  match currentStatus db deal_id with
  | none => (false, db)
  | some src =>
      if allowedTransition src tgt callerIsAdmin callerIsCreator then
        update_deal_status false db deal_id tgt.value now
      else (false, db)

/-! ## `Deal` dataclass and its dict serialization (`transaction.py`)

`datetime` values are modelled as natural-number clocks; `isoformat()` /
`datetime.fromisoformat(...)` become an injective decimal rendering and its
parser, with Python's raise-on-garbage behaviour as `Option`. -/

/-- The character of one decimal digit. -/
def digitChar (d : Nat) : Char :=
  match d with
  | 0 => '0' | 1 => '1' | 2 => '2' | 3 => '3' | 4 => '4'
  | 5 => '5' | 6 => '6' | 7 => '7' | 8 => '8' | 9 => '9'
  | _ => '*'

/-- Decimal digit value of a character, if it is one. -/
def digitOfChar? (c : Char) : Option Nat :=
  if 48 ≤ c.toNat ∧ c.toNat ≤ 57 then some (c.toNat - 48) else none

/-- Decode every character of a list as a decimal digit. -/
def decDigits : List Char → Option (List Nat)
  | [] => some []
  | c :: cs =>
      match digitOfChar? c, decDigits cs with
      | some d, some ds => some (d :: ds)
      | _, _ => none

/-- `datetime.isoformat()`, modelled as the decimal rendering of the
natural-number clock. -/
def isoformat (n : Nat) : String :=
  if n = 0 then "0" else String.mk ((Nat.digits 10 n).reverse.map digitChar)

/-- `datetime.fromisoformat(...)`, modelled as the decimal parser inverse to
`isoformat`; `none` models the `ValueError` on a malformed string. -/
def fromiso? (s : String) : Option Nat :=
  match decDigits s.toList with
  | none => none
  | some ds => if ds = [] then none else some (Nat.ofDigits 10 ds.reverse)

/-- The `Deal` dataclass from `transaction.py`. -/
structure Deal where
  deal_id : String
  creator_id : Nat
  description : String
  amount : ℚ
  terms : String
  status : DealStatus := .created
  created_at : Option Nat := none
  updated_at : Option Nat := none
deriving DecidableEq, Repr

/-- The dictionary shape produced by `Deal.to_dict`: `status` as its string
value, timestamps as optional ISO strings. -/
structure DealDict where
  deal_id : String
  creator_id : Nat
  description : String
  amount : ℚ
  terms : String
  status : String
  created_at : Option String
  updated_at : Option String
deriving DecidableEq, Repr

/-- `Deal.to_dict` from `transaction.py`: `self.status.value`, and
`self.created_at.isoformat() if self.created_at else None` (a `datetime` is
always truthy, so the guard is presence). -/
def Deal.to_dict (d : Deal) : DealDict :=
  { deal_id := d.deal_id, creator_id := d.creator_id,
    description := d.description, amount := d.amount, terms := d.terms,
    status := d.status.value,
    created_at := d.created_at.map isoformat,
    updated_at := d.updated_at.map isoformat }

/-- `datetime.fromisoformat(data[k]) if data.get(k) else None`: an absent or
empty (falsy) string yields `None`; otherwise the string is parsed, a parse
failure raising (`none` at the outer level). -/
def parseOptTime (o : Option String) : Option (Option Nat) :=
  match o with
  | none => some none
  | some s => if s = "" then some none else (fromiso? s).map some

/-- `Deal.from_dict` from `transaction.py`: field-by-field reconstruction,
`DealStatus(data.get('status', 'created'))` raising on an unknown value and
`datetime.fromisoformat` raising on a malformed timestamp (both `none`). -/
def Deal.from_dict (data : DealDict) : Option Deal := do
  let st ← DealStatus.ofValue data.status
  let ca ← parseOptTime data.created_at
  let ua ← parseOptTime data.updated_at
  pure { deal_id := data.deal_id, creator_id := data.creator_id,
         description := data.description, amount := data.amount,
         terms := data.terms, status := st,
         created_at := ca, updated_at := ua }

/-! ## Serialization lemmas -/

lemma digitOfChar_digitChar {d : Nat} (h : d < 10) :
    digitOfChar? (digitChar d) = some d := by
  interval_cases d <;> decide

lemma decDigits_map_digitChar {l : List Nat} (h : ∀ d ∈ l, d < 10) :
    decDigits (l.map digitChar) = some l := by
  induction l with
  | nil => rfl
  | cons d ds ih =>
      simp only [List.map_cons, decDigits]
      rw [digitOfChar_digitChar (h d (by simp)),
        ih (fun x hx => h x (by simp [hx]))]

lemma fromiso_isoformat (n : Nat) : fromiso? (isoformat n) = some n := by
  by_cases h : n = 0
  · subst h; decide
  · have hd : ∀ d ∈ (Nat.digits 10 n).reverse, d < 10 := fun d hdm =>
      Nat.digits_lt_base (by norm_num) (List.mem_reverse.mp hdm)
    have hne : (Nat.digits 10 n).reverse ≠ [] := by
      simp [List.reverse_eq_nil_iff, Nat.digits_eq_nil_iff_eq_zero, h]
    unfold isoformat fromiso?
    rw [if_neg h]
    have hlist :
        (String.mk ((Nat.digits 10 n).reverse.map digitChar)).toList
          = (Nat.digits 10 n).reverse.map digitChar := rfl
    rw [hlist, decDigits_map_digitChar hd]
    simp [hne, Nat.ofDigits_digits]

lemma isoformat_ne_empty (n : Nat) : isoformat n ≠ "" := by
  unfold isoformat
  by_cases h : n = 0
  · simp [h]
  · rw [if_neg h]
    intro hc
    have hdata : (Nat.digits 10 n).reverse.map digitChar = [] :=
      congrArg String.data hc
    simp [List.map_eq_nil_iff, List.reverse_eq_nil_iff,
      Nat.digits_eq_nil_iff_eq_zero, h] at hdata

lemma parseOptTime_map_isoformat (o : Option Nat) :
    parseOptTime (o.map isoformat) = some o := by
  cases o with
  | none => rfl
  | some n =>
      simp only [Option.map_some', parseOptTime]
      rw [if_neg (isoformat_ne_empty n), fromiso_isoformat]
      rfl

lemma DealStatus.ofValue_value (s : DealStatus) :
    DealStatus.ofValue s.value = some s := by
  cases s <;> rfl

/-- C8: for every `Deal` value — every status enumeration member and
present-or-absent timestamps included — `from_dict` applied to `to_dict`
recovers the original `Deal` exactly. -/
theorem deal_dict_roundtrip (d : Deal) :
    Deal.from_dict (Deal.to_dict d) = some d := by
  unfold Deal.from_dict Deal.to_dict
  simp [DealStatus.ofValue_value, parseOptTime_map_isoformat]

/-! ## Store lemmas -/

lemma lookupLast_upsertLast (db : RateTable) (u : Nat) (t : ℚ) :
    lookupLast (upsertLast db u t) u = some t := by
  simp [lookupLast, upsertLast, List.find?]

lemma lookupCount_upsertCount (l : List (Nat × Nat)) (u : Nat) (c : Nat) :
    lookupCount (upsertCount l u c) u = c := by
  simp [lookupCount, upsertCount, List.find?]

/-- C9: when the backing store raises inside `check_rate_limit`, the handler
catches and returns allowed=true with the table untouched — a store failure
never causes a rate-limit rejection and no failure is signalled to the
caller. -/
theorem check_rate_limit_fail_open (db : RateTable) (u : Nat) (now limit : ℚ) :
    check_rate_limit true db u now limit = (true, db) := rfl

/-- C10: `update_deal_status` reports `true` even when no deal with the given
id exists — the update is a no-op on the store yet is reported as success, so
a `true` result does not imply any deal's status changed. -/
theorem update_deal_status_absent_true (db : DealTable) (deal_id stv : String)
    (now : ℚ) (h : dealExists db deal_id = false) :
    update_deal_status false db deal_id stv now = (true, db) := by
  have hm : ∀ d ∈ db, d.deal_id ≠ deal_id := by
    intro d hd hcontra
    have : db.any (fun d => d.deal_id = deal_id) = true :=
      List.any_eq_true.mpr ⟨d, hd, by simp [hcontra]⟩
    rw [dealExists] at h
    rw [this] at h
    cases h
  unfold update_deal_status
  simp only [Bool.false_eq_true, if_false, Prod.mk.injEq, true_and]
  calc db.map (fun d =>
          if d.deal_id = deal_id then { d with status := stv, updated_at := now }
          else d)
      = db.map (fun d => d) :=
        List.map_congr_left (fun d hd => by simp [hm d hd])
    _ = db := List.map_id' db

/-- Witness for C10 at a concrete empty store. -/
theorem update_deal_status_absent_true_witness :
    update_deal_status false [] "DEAL42" "funded" 3 = (true, []) :=
  update_deal_status_absent_true [] "DEAL42" "funded" 3 (by decide)

/-- C7: `create_deal` returns failure and leaves the store unchanged when the
deal id already exists (uniqueness constraint), and the store operations that
hit an I/O or constraint error inside their `try` block return their failure
indicator to the caller — with the store unchanged — instead of raising. -/
theorem store_ops_fail_closed (db : DealTable) (udb : UserTable)
    (deal_id : String) (cid : Nat) (desc : String) (a : ℚ) (terms : String)
    (now : ℚ) (stv : String) (u : Nat) (un : Option String) (fn : String) :
    (dealExists db deal_id = true →
      create_deal false db deal_id cid desc a terms now = (false, db)) ∧
    (create_deal true db deal_id cid desc a terms now = (false, db)) ∧
    (update_deal_status true db deal_id stv now = (false, db)) ∧
    (create_user true udb u un fn = (false, udb)) := by
  refine ⟨fun h => ?_, rfl, rfl, rfl⟩
  simp [create_deal, h]

/-- Witness for C7: a store already holding `"D1"` rejects a second
`create_deal` with the same id and is left unchanged. -/
theorem store_ops_fail_closed_witness :
    create_deal false
      [{ deal_id := "D1", creator_id := 1, description := "vintage watch",
         amount := 1000, terms := "ship in 3 days", status := "created",
         created_at := 0, updated_at := 0 }] "D1" 2 "other" 200 "terms" 7
      = (false,
        [{ deal_id := "D1", creator_id := 1, description := "vintage watch",
           amount := 1000, terms := "ship in 3 days", status := "created",
           created_at := 0, updated_at := 0 }]) :=
  (store_ops_fail_closed
      [{ deal_id := "D1", creator_id := 1, description := "vintage watch",
         amount := 1000, terms := "ship in 3 days", status := "created",
         created_at := 0, updated_at := 0 }] [] "D1" 2 "other" 200 "terms" 7
      "funded" 0 none "x").1 (by decide)

/-! ## Auto-blocking -/

lemma mem_block_user (b : List Nat) (u : Nat) : u ∈ block_user b u := by
  unfold block_user
  split
  · assumption
  · exact List.mem_cons_self u b

lemma logFailedIter_le_four (st : MonitorState) (u : Nat)
    (hc : lookupCount st.failed u = 0) :
    ∀ n, n ≤ 4 →
      lookupCount (logFailedIter st u n).failed u = n ∧
      (logFailedIter st u n).blocked = st.blocked := by
  intro n
  induction n with
  | zero => exact fun _ => ⟨hc, rfl⟩
  | succ k ih =>
      intro hk
      obtain ⟨hcount, hblocked⟩ := ih (by omega)
      have hlt : ¬ (k + 1 ≥ 5) := by omega
      unfold logFailedIter log_failed_attempt
      rw [hcount, if_neg hlt]
      exact ⟨lookupCount_upsertCount _ _ _, hblocked⟩

/-- C4: starting from a user with no recorded failed attempts who is not
blocked, the fifth `log_failed_attempt` puts the user into the blocked set,
while after exactly four the user is still not blocked. -/
theorem auto_block_at_five (st : MonitorState) (u : Nat)
    (hc : lookupCount st.failed u = 0) (hb : u ∉ st.blocked) :
    u ∈ (logFailedIter st u 5).blocked ∧ u ∉ (logFailedIter st u 4).blocked := by
  obtain ⟨hcount, hblocked⟩ := logFailedIter_le_four st u hc 4 (by omega)
  constructor
  · show u ∈ (log_failed_attempt (logFailedIter st u 4) u).blocked
    unfold log_failed_attempt
    rw [hcount, if_pos (by omega)]
    rw [hblocked]
    exact mem_block_user st.blocked u
  · rw [hblocked]
    exact hb

/-- Witness for C4 at the fresh monitor state and user 3. -/
theorem auto_block_at_five_witness :
    3 ∈ (logFailedIter ⟨[], [], []⟩ 3 5).blocked ∧
    3 ∉ (logFailedIter ⟨[], [], []⟩ 3 4).blocked :=
  auto_block_at_five ⟨[], [], []⟩ 3 (by decide) (by decide)

/-! ## Lifecycle legality -/

lemma allowedTransition_facts :
    ∀ (src tgt : DealStatus) (adm cr : Bool),
      (allowedTransition src tgt adm cr = true →
        (src = .created ∧ tgt = .funded) ∨
        (src = .funded ∧ tgt = .completed) ∨
        (src = .funded ∧ tgt = .disputed) ∨
        (src = .disputed ∧ tgt = .completed) ∨
        (src = .disputed ∧ tgt = .cancelled) ∨
        (src = .created ∧ tgt = .cancelled)) ∧
      (allowedTransition .completed tgt adm cr = false) ∧
      (allowedTransition .cancelled tgt adm cr = false) ∧
      (allowedTransition src .disputed adm cr = true → src = .funded) ∧
      (allowedTransition src .cancelled adm cr = true →
        src = .created ∨ src = .disputed) ∧
      (allowedTransition .created .completed adm cr = false) := by decide

/-- C1: the orchestrator only moves a deal's status along the lifecycle graph
`CREATED → FUNDED → COMPLETED` with `DISPUTED` reachable only from `FUNDED`
and `CANCELLED` only from `CREATED` or `DISPUTED`; `COMPLETED` and
`CANCELLED` are terminal; and a transition outside the graph — `CREATED`
directly to `COMPLETED` in particular — is rejected with the store left
unchanged, regardless of the caller's admin or creator flags. -/
theorem deal_lifecycle_graph (src tgt : DealStatus) (adm cr : Bool)
    (db : DealTable) (deal_id : String) (now : ℚ) :
    (allowedTransition src tgt adm cr = true →
      (src = .created ∧ tgt = .funded) ∨
      (src = .funded ∧ tgt = .completed) ∨
      (src = .funded ∧ tgt = .disputed) ∨
      (src = .disputed ∧ tgt = .completed) ∨
      (src = .disputed ∧ tgt = .cancelled) ∨
      (src = .created ∧ tgt = .cancelled)) ∧
    (allowedTransition .completed tgt adm cr = false) ∧
    (allowedTransition .cancelled tgt adm cr = false) ∧
    (allowedTransition src .disputed adm cr = true → src = .funded) ∧
    (allowedTransition src .cancelled adm cr = true →
      src = .created ∨ src = .disputed) ∧
    (allowedTransition .created .completed adm cr = false) ∧
    (currentStatus db deal_id = some src →
      (transitionDeal db deal_id tgt adm cr now).1 = true →
      allowedTransition src tgt adm cr = true) ∧
    (currentStatus db deal_id = some src →
      allowedTransition src tgt adm cr = false →
      transitionDeal db deal_id tgt adm cr now = (false, db)) := by
  obtain ⟨h1, h2, h3, h4, h5, h6⟩ := allowedTransition_facts src tgt adm cr
  refine ⟨h1, h2, h3, h4, h5, h6, fun hcur hsucc => ?_, fun hcur hno => ?_⟩
  · by_contra hno
    have : transitionDeal db deal_id tgt adm cr now = (false, db) := by
      unfold transitionDeal
      rw [hcur]
      simp [Bool.eq_false_iff.mpr hno]
    rw [this] at hsucc
    cases hsucc
  · unfold transitionDeal
    rw [hcur]
    simp [hno]

/-- Witness for C1: a concrete `CREATED` deal; the admin-and-creator caller's
attempt to jump straight to `COMPLETED` is rejected and the store is
unchanged. -/
theorem deal_lifecycle_graph_witness :
    transitionDeal
      [{ deal_id := "D1", creator_id := 1, description := "vintage watch",
         amount := 1000, terms := "ship in 3 days", status := "created",
         created_at := 0, updated_at := 0 }] "D1" .completed true true 5
      = (false,
        [{ deal_id := "D1", creator_id := 1, description := "vintage watch",
           amount := 1000, terms := "ship in 3 days", status := "created",
           created_at := 0, updated_at := 0 }]) :=
  ((deal_lifecycle_graph .created .completed true true
      [{ deal_id := "D1", creator_id := 1, description := "vintage watch",
         amount := 1000, terms := "ship in 3 days", status := "created",
         created_at := 0, updated_at := 0 }] "D1" 5).2.2.2.2.2.2.2)
    (by decide) (by decide)

/-! ## Rate limiting (durable layer) -/

lemma check_rate_limit_allowed_lookup (db : RateTable) (u : Nat)
    (now limit : ℚ) (h : (check_rate_limit false db u now limit).1 = true) :
    lookupLast (check_rate_limit false db u now limit).2 u = some now := by
  cases hl : lookupLast db u with
  | none => simp [check_rate_limit, hl, lookupLast_upsertLast]
  | some last =>
      by_cases hw : now - last < limit
      · simp [check_rate_limit, hl, hw] at h
      · simp [check_rate_limit, hl, hw, lookupLast_upsertLast]

lemma check_rate_limit_rejected_state (db : RateTable) (u : Nat)
    (now limit : ℚ) (h : (check_rate_limit false db u now limit).1 = false) :
    (check_rate_limit false db u now limit).2 = db := by
  cases hl : lookupLast db u with
  | none => simp [check_rate_limit, hl] at h
  | some last =>
      by_cases hw : now - last < limit
      · simp [check_rate_limit, hl, hw]
      · simp [check_rate_limit, hl, hw] at h

/-- C2 (amended): `check_rate_limit` allows and records the current time when
there is no prior record or the elapsed time reaches the window, and rejects
leaving the table untouched otherwise; of two same-user calls separated by
less than the window, at most one is allowed — exactly one when the first is
allowed (in particular from no prior record) — and a second call rejected
after an allowed first leaves the recorded `last_action` at the first call's
time. -/
theorem check_rate_limit_spec (db : RateTable) (u : Nat) (t1 t2 limit : ℚ) :
    (∀ last, lookupLast db u = some last → limit ≤ t1 - last →
      check_rate_limit false db u t1 limit = (true, upsertLast db u t1)) ∧
    (lookupLast db u = none →
      check_rate_limit false db u t1 limit = (true, upsertLast db u t1)) ∧
    (∀ last, lookupLast db u = some last → t1 - last < limit →
      check_rate_limit false db u t1 limit = (false, db)) ∧
    (0 ≤ t2 - t1 → t2 - t1 < limit →
      (check_rate_limit false db u t1 limit).1 = true →
      check_rate_limit false (check_rate_limit false db u t1 limit).2 u t2 limit
        = (false, (check_rate_limit false db u t1 limit).2)) := by
  refine ⟨fun last hl hw => ?_, fun hl => ?_, fun last hl hw => ?_,
    fun hpos hwin hfst => ?_⟩
  · simp [check_rate_limit, hl, not_lt.mpr hw]
  · simp [check_rate_limit, hl]
  · simp [check_rate_limit, hl, hw]
  · have hlook := check_rate_limit_allowed_lookup db u t1 limit hfst
    set db1 := (check_rate_limit false db u t1 limit).2 with hdb1
    simp [check_rate_limit, hlook, show t2 - t1 < limit from hwin]

/-- Witness for C2 (amended): from an empty table, a first call at time 0 is
allowed, and a second call 1 second later (window 5) is rejected without
advancing the recorded `last_action`. -/
theorem check_rate_limit_spec_witness :
    check_rate_limit false [] 1 0 5 = (true, upsertLast [] 1 0) ∧
    check_rate_limit false (check_rate_limit false [] 1 0 5).2 1 1 5
      = (false, (check_rate_limit false [] 1 0 5).2) :=
  ⟨(check_rate_limit_spec [] 1 0 1 5).2.1 (by decide),
   (check_rate_limit_spec [] 1 0 1 5).2.2.2 (by norm_num) (by norm_num)
     (by decide)⟩

/-- C2 counterexample: with a stored `last_action` of 10 and window 5, calls
at times 11 and 12 — separated by 1 < 5 — both return allowed=false, so it is
not the case that exactly one of two such calls returns allowed=true. -/
theorem check_rate_limit_exactly_one_counterexample :
    (0:ℚ) ≤ 12 - 11 ∧ (12:ℚ) - 11 < 5 ∧
    (check_rate_limit false [(1, 10)] 1 11 5).1 = false ∧
    (check_rate_limit false (check_rate_limit false [(1, 10)] 1 11 5).2 1 12 5).1
      = false := by
  have h1 : check_rate_limit false [(1, (10:ℚ))] 1 11 5 = (false, [(1, 10)]) := by
    simp [check_rate_limit, lookupLast, List.find?]
    norm_num
  refine ⟨by norm_num, by norm_num, ?_, ?_⟩
  · rw [h1]
  · rw [h1]
    simp [check_rate_limit, lookupLast, List.find?]
    norm_num

/-! ## Merged rate-limit guard (`security.py` decorator) -/

lemma rate_limit_rejectedDb_state (st : GuardState) (u : Nat) (now window : ℚ)
    (h : (rate_limit false st u now window).1 = .rejectedDb) :
    (rate_limit false st u now window).2
      = { st with cache := upsertLast st.cache u now } := by
  by_cases hb : u ∈ st.blocked
  · simp [rate_limit, hb] at h
  · cases hl : lookupLast st.cache u with
    | some t =>
        by_cases hw : now - t < window
        · simp [rate_limit, hb, hl, hw] at h
        · by_cases hr : (check_rate_limit false st.db u now window).1 = true
          · simp [rate_limit, hb, hl, hw, hr] at h
          · have hst := check_rate_limit_rejected_state st.db u now window
              (Bool.eq_false_iff.mpr hr)
            simp [rate_limit, hb, hl, hw, hr, hst]
    | none =>
        by_cases hr : (check_rate_limit false st.db u now window).1 = true
        · simp [rate_limit, hb, hl, hr] at h
        · have hst := check_rate_limit_rejected_state st.db u now window
            (Bool.eq_false_iff.mpr hr)
          simp [rate_limit, hb, hl, hr, hst]

/-- C3 (amended): in the merged guard, an action stopped by the blocked-user
set or by the in-memory fast path leaves the whole state — both timestamps
included — unchanged, and an action rejected by the durable layer leaves the
durable `last_action` unchanged; but an action rejected by the durable layer
has already overwritten the user's in-memory last-action timestamp with the
current time, so the in-memory window does slide on such a rejection. -/
theorem rate_limit_reject_no_slide (st : GuardState) (u : Nat)
    (now window : ℚ) (fault : Bool) :
    (u ∈ st.blocked → rate_limit fault st u now window = (.blockedUser, st)) ∧
    (∀ t, u ∉ st.blocked → lookupLast st.cache u = some t → now - t < window →
      rate_limit fault st u now window = (.rejectedMemory, st)) ∧
    ((rate_limit false st u now window).1 = .rejectedDb →
      (rate_limit false st u now window).2.db = st.db) ∧
    ((rate_limit false st u now window).1 = .rejectedDb →
      lookupLast (rate_limit false st u now window).2.cache u = some now) := by
  refine ⟨fun hb => ?_, fun t hnb hl hw => ?_, fun h => ?_, fun h => ?_⟩
  · simp [rate_limit, hb]
  · simp [rate_limit, hnb, hl, hw]
  · rw [rate_limit_rejectedDb_state st u now window h]
  · rw [rate_limit_rejectedDb_state st u now window h]
    exact lookupLast_upsertLast st.cache u now

/-- Witness for C3 (amended): a user whose cached last action was 1 second
ago (window 5) is rejected by the in-memory layer with the whole guard state
unchanged. -/
theorem rate_limit_reject_no_slide_witness :
    rate_limit false ⟨[(1, 10)], [], [(1, 10)]⟩ 1 11 5
      = (.rejectedMemory, ⟨[(1, 10)], [], [(1, 10)]⟩) :=
  (rate_limit_reject_no_slide ⟨[(1, 10)], [], [(1, 10)]⟩ 1 11 5 false).2.1
    10 (by decide) (by decide) (by norm_num)

/-- C3 counterexample: with an empty in-memory cache (for example after a
process restart) and a durable `last_action` of 10, an action at time 11 with
window 5 is rejected by the durable layer, yet the user's in-memory timestamp
has gone from absent to 11 — a rejected action changed the in-memory
last-action timestamp. -/
theorem rate_limit_slide_counterexample :
    (rate_limit false ⟨[], [], [(1, 10)]⟩ 1 11 5).1 = .rejectedDb ∧
    lookupLast (GuardState.cache ⟨[], [], [(1, 10)]⟩) 1 = none ∧
    lookupLast (rate_limit false ⟨[], [], [(1, 10)]⟩ 1 11 5).2.cache 1
      = some 11 := by
  have h1 : rate_limit false ⟨[], [], [(1, 10)]⟩ 1 11 5
      = (.rejectedDb, ⟨[(1, 11)], [], [(1, 10)]⟩) := by
    norm_num [rate_limit, check_rate_limit, lookupLast, upsertLast, List.find?]
  rw [h1]
  exact ⟨rfl, rfl, rfl⟩

/-! ## Deal-creation validation -/

/-- C5: `validate_deal_data` accepts exactly the inputs whose trimmed
description length is in [10,500], whose amount lies in [100,500000] (hence
is positive), and whose trimmed terms length is in [20,1000]; every amount
outside [100,500000] is rejected; and when several rules fail the message is
that of the first failing rule in source order: description-min,
description-max, amount-positive, amount-min, amount-max, terms-min,
terms-max. -/
theorem validate_deal_data_spec (d : String) (a : ℚ) (t : String) :
    ((validate_deal_data d a t).1 = true ↔
      (10 ≤ (pyStrip d).length ∧ (pyStrip d).length ≤ 500 ∧
       100 ≤ a ∧ a ≤ 500000 ∧
       20 ≤ (pyStrip t).length ∧ (pyStrip t).length ≤ 1000)) ∧
    ((a < 100 ∨ 500000 < a) → (validate_deal_data d a t).1 = false) ∧
    ((pyStrip d).length < 10 →
      validate_deal_data d a t
        = (false, "Description must be at least 10 characters")) ∧
    (10 ≤ (pyStrip d).length → 500 < (pyStrip d).length →
      validate_deal_data d a t
        = (false, "Description must be less than 500 characters")) ∧
    (10 ≤ (pyStrip d).length → (pyStrip d).length ≤ 500 → a ≤ 0 →
      validate_deal_data d a t = (false, "Amount must be greater than 0")) ∧
    (10 ≤ (pyStrip d).length → (pyStrip d).length ≤ 500 → 0 < a → a < 100 →
      validate_deal_data d a t = (false, "Minimum amount is ₹100")) ∧
    (10 ≤ (pyStrip d).length → (pyStrip d).length ≤ 500 → 500000 < a →
      validate_deal_data d a t = (false, "Maximum amount is ₹5,00,000")) ∧
    (10 ≤ (pyStrip d).length → (pyStrip d).length ≤ 500 → 100 ≤ a →
      a ≤ 500000 → (pyStrip t).length < 20 →
      validate_deal_data d a t
        = (false, "Terms must be at least 20 characters")) ∧
    (10 ≤ (pyStrip d).length → (pyStrip d).length ≤ 500 → 100 ≤ a →
      a ≤ 500000 → 20 ≤ (pyStrip t).length → 1000 < (pyStrip t).length →
      validate_deal_data d a t
        = (false, "Terms must be less than 1000 characters")) := by
  refine ⟨?_, ?_, ?_, ?_, ?_, ?_, ?_, ?_, ?_⟩
  · constructor
    · intro h
      unfold validate_deal_data at h
      split_ifs at h with h1 h2 h3 h4 h5 h6 h7
      exact ⟨by omega, by omega, by linarith, by linarith, by omega, by omega⟩
    · rintro ⟨c1, c2, c3, c4, c5, c6⟩
      unfold validate_deal_data
      rw [if_neg (by omega), if_neg (by omega), if_neg (by linarith),
        if_neg (by linarith), if_neg (by linarith), if_neg (by omega),
        if_neg (by omega)]
  · intro hout
    unfold validate_deal_data
    split_ifs <;> first | rfl | (exfalso; rcases hout with h | h <;> linarith)
  · intro h1
    unfold validate_deal_data
    rw [if_pos h1]
  · intro h1 h2
    unfold validate_deal_data
    rw [if_neg (by omega), if_pos (by omega)]
  · intro h1 h2 h3
    unfold validate_deal_data
    rw [if_neg (by omega), if_neg (by omega), if_pos h3]
  · intro h1 h2 h3 h4
    unfold validate_deal_data
    rw [if_neg (by omega), if_neg (by omega), if_neg (by linarith), if_pos h4]
  · intro h1 h2 h3
    unfold validate_deal_data
    rw [if_neg (by omega), if_neg (by omega), if_neg (by linarith),
      if_neg (by linarith), if_pos h3]
  · intro h1 h2 h3 h4 h5
    unfold validate_deal_data
    rw [if_neg (by omega), if_neg (by omega), if_neg (by linarith),
      if_neg (by linarith), if_neg (by linarith), if_pos h5]
  · intro h1 h2 h3 h4 h5 h6
    unfold validate_deal_data
    rw [if_neg (by omega), if_neg (by omega), if_neg (by linarith),
      if_neg (by linarith), if_neg (by linarith), if_neg (by omega),
      if_pos (by omega)]

/-- Witness for C5: the spec's own scenario input is accepted, and an
amount of 600000 (above the 500000 ceiling) is rejected with the
amount-maximum message. -/
theorem validate_deal_data_spec_witness :
    (validate_deal_data "Sell a vintage watch" 1000
        "Item shipped within 3 days of payment confirmation").1 = true ∧
    validate_deal_data "Sell a vintage watch" 600000
        "Item shipped within 3 days of payment confirmation"
      = (false, "Maximum amount is ₹5,00,000") :=
  ⟨(validate_deal_data_spec "Sell a vintage watch" 1000
      "Item shipped within 3 days of payment confirmation").1.mpr
      ⟨by decide, by decide, by norm_num, by norm_num, by decide, by decide⟩,
   (validate_deal_data_spec "Sell a vintage watch" 600000
      "Item shipped within 3 days of payment confirmation").2.2.2.2.2.2.1
      (by decide) (by decide) (by norm_num)⟩

/-! ## Raw amount-string validation -/

/-- C6: `validate_amount` strips thousands separators and the currency glyph,
parses the cleaned string as a number, and returns invalid with amount 0
whenever the cleaned string is non-numeric, the parsed value is ≤ 0, or the
parsed value exceeds 10,000,000, and otherwise valid with the parsed value;
in particular `"₹1,00,000"` yields `(true, 100000)`, `"abc"` yields
`(false, 0)`, and `"20000000"` yields `(false, 0)`. -/
theorem validate_amount_spec (s : String) :
    (pyFloat? (cleanAmount s) = none → validate_amount s = (false, 0)) ∧
    (∀ a : ℚ, pyFloat? (cleanAmount s) = some a → a ≤ 0 →
      validate_amount s = (false, 0)) ∧
    (∀ a : ℚ, pyFloat? (cleanAmount s) = some a → 10000000 < a →
      validate_amount s = (false, 0)) ∧
    (∀ a : ℚ, pyFloat? (cleanAmount s) = some a → 0 < a → a ≤ 10000000 →
      validate_amount s = (true, a)) ∧
    validate_amount "₹1,00,000" = (true, 100000) ∧
    validate_amount "abc" = (false, 0) ∧
    validate_amount "20000000" = (false, 0) := by
  refine ⟨fun h => ?_, fun a ha hle => ?_, fun a ha hgt => ?_,
    fun a ha h0 hceil => ?_, by decide, by decide, by decide⟩
  · unfold validate_amount
    rw [h]
  · unfold validate_amount
    rw [ha]
    simp [hle]
  · simp only [validate_amount, ha]
    rw [if_neg (by linarith), if_pos hgt]
  · simp only [validate_amount, ha]
    rw [if_neg (by linarith), if_neg (by linarith)]

/-- Witness for C6: the general acceptance clause applied to the concrete
input `"500"`. -/
theorem validate_amount_spec_witness : validate_amount "500" = (true, 500) :=
  (validate_amount_spec "500").2.2.2.1 500 (by decide) (by norm_num)
    (by norm_num)

end EscrowBot
